import Mathlib

/-
Shallow embedding of the skil-python Model wrapper (src/skil/models.py).

Python objects and remote calls are modelled explicitly:
  - the model argument of the Model constructor is a PyVal (a string, an
    object exposing a save method, an object without one, or None);
  - every filesystem and remote interaction is recorded as an Event in a
    trace returned next to the result;
  - Python exceptions are an explicit PyError in an Except result;
  - oracle data (fresh uuid, clock, remote responses, the filesystem
    predicate) is packaged in a World value threaded through the functions.
-/

namespace SkilSpec

/-- Values that can be passed as the model argument of the Model
constructor: a Python string, an object exposing a save method, an object
without one, or None. -/
inductive PyVal where
  | str (s : String)
  | saveObj (r : String)
  | plain (r : String)
  | pynone
  deriving DecidableEq, Repr

/-- Truth of hasattr(model, the save attribute) for a PyVal. Python strings
and None have no save attribute. -/
def PyVal.hasSave : PyVal → Bool
  | PyVal.saveObj _ => true
  | _ => false

/-- Result of the Python str() conversion used in the invalid-model error
message. -/
def PyVal.reprStr : PyVal → String
  | PyVal.str s => s
  | PyVal.saveObj r => r
  | PyVal.plain r => r
  | PyVal.pynone => "None"

/-- Whether the model argument is a string naming an existing file, i.e.
the test isinstance(model, str) and os.path.isfile(model). -/
def PyVal.isExistingFileArg : PyVal → (String → Bool) → Bool
  | PyVal.str s, isfile => isfile s
  | _, _ => false

/-- Python defaulting idiom x if x else d for an optional string: None and
the empty string are falsy. -/
def orElseStr (x : Option String) (d : String) : String :=
  match x with
  | some s => if s = "" then d else s
  | none => d

/-- Python defaulting idiom x if x else d for an optional integer: None and
zero are falsy. -/
def orElseNat (x : Option Nat) (d : Nat) : Nat :=
  match x with
  | some n => if n = 0 then d else n
  | none => d

/-- Behaviour of os.path.join on two posix path segments. -/
def osPathJoin (a b : String) : String :=
  if b.startsWith "/" then b
  else if a = "" then b
  else if a.endsWith "/" then a ++ b
  else a ++ "/" ++ b

/-- Modelled from the spec: the Client session (class Skil, whose defining
module is not under src/) holds server connection info and the api handle;
here its server id and the get_model_path lookup used by Model. -/
structure SkilClient where
  serverId : String
  getModelPath : String → String

/-- Modelled from the spec: a WorkSpace (its defining module is not under
src/) has an identity and its owning Client session. -/
structure WorkSpace where
  id : String
  skil : SkilClient

/-- Modelled from the spec: an Experiment (its defining module is not under
src/) has an identity and its owning WorkSpace. -/
structure Experiment where
  id : String
  work_space : WorkSpace

/-- Remote response payload held by a Deployment; Model.deploy and
Model.undeploy read its id field. -/
structure DeploymentResponse where
  id : String
  deriving DecidableEq, Repr

/-- Modelled from the spec: a Deployment (its defining module is not under
src/) has a name and the remote response payload of its create call. -/
structure Deployment where
  name : String
  response : DeploymentResponse
  deriving DecidableEq, Repr

/-- Request body of the add_model_instance registration call
(skil_client.ModelInstanceEntity) exactly as Model.__init__ fills it. -/
structure ModelInstanceEntity where
  uri : String
  model_id : Option String
  model_labels : String
  model_name : Option String
  model_version : Nat
  created : Nat
  experiment_id : String
  deriving DecidableEq, Repr

/-- Request body of the add_evaluation_result call
(skil_client.EvaluationResultsEntity) as Model.add_evaluation fills it.
The float conversion of accuracy is modelled as the identity on rationals. -/
structure EvaluationResultsEntity where
  evaluation : String
  created : Nat
  eval_name : String
  model_instance_id : String
  accuracy : Rat
  eval_id : String
  eval_version : Nat
  deriving DecidableEq, Repr

/-- Request body of the deploy_model call (skil_client.ImportModelRequest)
as Model.deploy fills it. -/
structure ImportModelRequest where
  name : String
  scale : Nat
  file_location : String
  model_type : String
  uri : List String
  input_names : Option (List String)
  output_names : Option (List String)
  deriving DecidableEq, Repr

/-- One observable filesystem or remote interaction performed by the
wrapper, in program order. -/
inductive Event where
  | removeFile (path : String)
  | saveModel (path : String)
  | createWorkSpace (id : String)
  | createExperiment (id : String)
  | uploadModel (path : String)
  | addModelInstance (serverId : String) (entity : ModelInstanceEntity)
  | getModelInstance (serverId : String) (modelId : String)
  | deleteModelInstance (serverId : String) (modelId : String)
  | addEvaluationResult (serverId : String) (entity : EvaluationResultsEntity)
  | createDeployment (name : String)
  | deployModel (deploymentId : String) (req : ImportModelRequest)
  | deleteModel (deploymentId : String) (modelId : String)
  | startService
  deriving DecidableEq, Repr

/-- Python exceptions the wrapper can raise. -/
inductive PyError where
  | invalidModel (msg : String)
  | assertionError
  | unboundLocal (var : String)
  | attributeError (attr : String)
  | apiException (msg : String)
  deriving DecidableEq, Repr

/-- Oracle data for one run: the filesystem predicate, the working
directory, the fresh uuid and clock values, and the remote responses. -/
structure World where
  isfile : String → Bool
  cwd : String
  freshUuid : String
  nowMs : Nat
  defaultSkil : SkilClient
  freshWorkSpaceId : String
  freshExperimentId : String
  evalResponse : String
  newDeploymentResponse : DeploymentResponse

/-- Attribute state of a Model object. The deployment and model_deployment
attributes are absent (none) until Model.deploy assigns them. The
evaluations dict is keyed by the raw id argument of add_evaluation, which
can be None. -/
structure ModelState where
  experiment : Experiment
  id : String
  name : String
  version : Nat
  model_name : String
  model_path : String
  evaluations : List (Option String × String)
  deployment : Option DeploymentResponse
  model_deployment : Option String

/-- Python dict assignment d[k] = v on an insertion-ordered association
list: an existing key is updated in place, a new key is appended. -/
def dictInsert (m : List (Option String × String)) (k : Option String)
    (v : String) : List (Option String × String) :=
  if m.any (fun p => decide (p.1 = k)) then
    m.map (fun p => if p.1 = k then (p.1, v) else p)
  else m ++ [(k, v)]

/-- Python dict lookup d[k] on the association list, as an Option. -/
def dictLookup (m : List (Option String × String)) (k : Option String) :
    Option String :=
  match m with
  | [] => none
  | p :: rest => if p.1 = k then some p.2 else dictLookup rest k

/-- Resolution of the experiment argument (src/skil/models.py lines
40-47): when no experiment is given, a fresh Client session, WorkSpace and
Experiment are created, each WorkSpace and Experiment creation being one
remote call; otherwise the given experiment and its owners are used. -/
def resolveExperiment (experiment : Option Experiment) (w : World) :
    Experiment × List Event :=
  match experiment with
  | some e => (e, [])
  | none =>
    let sk := w.defaultSkil
    let ws : WorkSpace := ⟨w.freshWorkSpaceId, sk⟩
    let ex : Experiment := ⟨w.freshExperimentId, ws⟩
    (ex, [Event.createWorkSpace ws.id, Event.createExperiment ex.id])

/-- Embedding of Model.__init__ (src/skil/models.py lines 27-83), both the
create=True branch and the create=False branch used by get_model_by_id.
In the create=False branch the source reads the local variable
model_file_name, which is only ever assigned in the create=True branch, so
that branch ends in an UnboundLocalError after the get_model_instance
call. -/
def modelInit (create : Bool) (model : PyVal) (id name : Option String)
    (version : Option Nat) (experiment : Option Experiment) (labels : String)
    (w : World) : Except PyError ModelState × List Event :=
  if create then
    let step1 : Except PyError (String × List Event) :=
      match model with
      | PyVal.str s =>
        if w.isfile s then Except.ok (s, [])
        else Except.error (PyError.invalidModel ("Invalid model: " ++ s))
      | m =>
        if m.hasSave then
          Except.ok ("temp_model.h5",
            (if w.isfile "temp_model.h5" then
               [Event.removeFile "temp_model.h5"] else [])
              ++ [Event.saveModel "temp_model.h5"])
        else
          Except.error (PyError.invalidModel ("Invalid model: " ++ m.reprStr))
    match step1 with
    | Except.error e => (Except.error e, [])
    | Except.ok (model_file_name, ev1) =>
      let expAndEvents := resolveExperiment experiment w
      let exp := expAndEvents.1
      let sk := exp.work_space.skil
      let ev3 := [Event.uploadModel (osPathJoin w.cwd model_file_name)]
      let model_path := sk.getModelPath model_file_name
      let entity : ModelInstanceEntity :=
        { uri := model_path
          model_id := id
          model_labels := labels
          model_name := name
          model_version := orElseNat version 1
          created := w.nowMs
          experiment_id := exp.id }
      (Except.ok
        { experiment := exp
          id := orElseStr id w.freshUuid
          name := orElseStr name model_file_name
          version := orElseNat version 1
          model_name := model_file_name
          model_path := model_path
          evaluations := []
          deployment := none
          model_deployment := none },
       ev1 ++ expAndEvents.2 ++ ev3
         ++ [Event.addModelInstance sk.serverId entity])
  else
    match experiment with
    | none => (Except.error (PyError.attributeError "work_space"), [])
    | some exp =>
      match id with
      | none => (Except.error PyError.assertionError, [])
      | some mid =>
        let sk := exp.work_space.skil
        (Except.error (PyError.unboundLocal "model_file_name"),
         [Event.getModelInstance sk.serverId mid])

/-- Embedding of the module-level get_model_by_id helper
(src/skil/models.py lines 164-165). -/
def getModelById (experiment : Experiment) (id : String) (w : World) :
    Except PyError ModelState × List Event :=
  modelInit false PyVal.pynone (some id) none none (some experiment) "" w

/-- Message printed when a remote deletion call raises ApiException; both
Model.delete and Model.undeploy use this exact text. -/
def apiErrMsg (e : String) : String :=
  ">>> Exception when calling delete_model_instance: " ++ e ++ "\n"

/-- Embedding of Model.delete (src/skil/models.py lines 85-92). The remote
outcome of delete_model_instance is passed in; an ApiException is caught
and turned into a printed message, never re-raised. The ok payload lists
the messages printed. -/
def modelDelete (st : ModelState) (remote : Except String Unit) :
    Except PyError (List String) × List Event :=
  let sk := st.experiment.work_space.skil
  let ev := [Event.deleteModelInstance sk.serverId st.id]
  match remote with
  | Except.ok _ => (Except.ok [], ev)
  | Except.error e => (Except.ok [apiErrMsg e], ev)

/-- Embedding of Model.add_evaluation (src/skil/models.py lines 94-111).
The request carries the defaulted eval_id, eval_name and eval_version; the
response is stored in the evaluations dict under the raw id argument. -/
def addEvaluation (st : ModelState) (accuracy : Rat) (id name : Option String)
    (version : Option Nat) (w : World) : ModelState × List Event :=
  let entity : EvaluationResultsEntity :=
    { evaluation := ""
      created := w.nowMs
      eval_name := orElseStr name st.id
      model_instance_id := st.id
      accuracy := accuracy
      eval_id := orElseStr id st.id
      eval_version := orElseNat version 1 }
  let sk := st.experiment.work_space.skil
  ({ st with evaluations := dictInsert st.evaluations id w.evalResponse },
   [Event.addEvaluationResult sk.serverId entity])

/-- The two deployment URIs built by Model.deploy
(src/skil/models.py lines 131-132). -/
def deployUris (deploymentName modelName : String) : List String :=
  [deploymentName ++ "/model/" ++ modelName ++ "/default",
   deploymentName ++ "/model/" ++ modelName ++ "/v1"]

/-- Modelled from the spec: a Service (its defining module is not under
src/) references the model, the deployment response and the deploy
response, and has a boolean running state toggled by start and stop. -/
structure ServiceState where
  modelName : String
  deployment : DeploymentResponse
  modelDeployment : String
  running : Bool
  deriving DecidableEq, Repr

/-- Embedding of Model.deploy (src/skil/models.py lines 113-152). When no
deployment is given a new Deployment named after the model is created
(one create call); the deploy_model outcome is passed in and is not
caught, so a remote failure propagates as an ApiException. On success the
deployment and model_deployment attributes are assigned and a Service is
returned, started immediately when start_server is true. -/
def modelDeploy (st : ModelState) (deployment : Option Deployment)
    (start_server : Bool) (scale : Nat)
    (input_names output_names : Option (List String))
    (w : World) (remote : Except String String) :
    Except PyError (ModelState × ServiceState) × List Event :=
  let depAndEvents : Deployment × List Event :=
    match deployment with
    | some d => (d, [])
    | none => (⟨st.name, w.newDeploymentResponse⟩,
               [Event.createDeployment st.name])
  let dep := depAndEvents.1
  let req : ImportModelRequest :=
    { name := st.name
      scale := scale
      file_location := st.model_path
      model_type := "model"
      uri := deployUris dep.name st.name
      input_names := input_names
      output_names := output_names }
  let ev2 := depAndEvents.2 ++ [Event.deployModel dep.response.id req]
  match remote with
  | Except.error e => (Except.error (PyError.apiException e), ev2)
  | Except.ok resp =>
    (Except.ok
      ({ st with deployment := some dep.response
                 model_deployment := some resp },
       { modelName := st.name
         deployment := dep.response
         modelDeployment := resp
         running := start_server }),
     ev2 ++ (if start_server then [Event.startService] else []))

/-- Embedding of Model.undeploy (src/skil/models.py lines 154-161). It
reads the deployment attribute, raising AttributeError when deploy has
never assigned it; an ApiException from delete_model is caught and turned
into a printed message, never re-raised. -/
def modelUndeploy (st : ModelState) (remote : Except String Unit) :
    Except PyError (List String) × List Event :=
  match st.deployment with
  | none => (Except.error (PyError.attributeError "deployment"), [])
  | some dep =>
    let ev := [Event.deleteModel dep.id st.id]
    match remote with
    | Except.ok _ => (Except.ok [], ev)
    | Except.error e => (Except.ok [apiErrMsg e], ev)

/-- Registration request bodies occurring in a trace. -/
def registeredEntities (evs : List Event) : List ModelInstanceEntity :=
  evs.filterMap fun e =>
    match e with
    | Event.addModelInstance _ ent => some ent
    | _ => none

/-- Evaluation request bodies occurring in a trace. -/
def evalEntities (evs : List Event) : List EvaluationResultsEntity :=
  evs.filterMap fun e =>
    match e with
    | Event.addEvaluationResult _ ent => some ent
    | _ => none

/-- Names of the Deployment objects created in a trace. -/
def createdDeploymentNames (evs : List Event) : List String :=
  evs.filterMap fun e =>
    match e with
    | Event.createDeployment n => some n
    | _ => none

/-- Paths uploaded to the remote store in a trace. -/
def uploadedPaths (evs : List Event) : List String :=
  evs.filterMap fun e =>
    match e with
    | Event.uploadModel p => some p
    | _ => none

/-- Whether an event writes to the local filesystem (a temp-file removal or
a local serialization). -/
def Event.isLocalWrite : Event → Bool
  | Event.removeFile _ => true
  | Event.saveModel _ => true
  | _ => false

/-- Whether an Except value is a success. -/
def exceptIsOk {ε α : Type} : Except ε α → Bool
  | Except.ok _ => true
  | Except.error _ => false

/-- The success payload of an Except value, as a zero- or one-element
list. -/
def okStates {ε α : Type} : Except ε α → List α
  | Except.ok a => [a]
  | Except.error _ => []

/-- Concrete client session used by the concrete instances below. -/
def skil0 : SkilClient :=
  { serverId := "server-0", getModelPath := fun p => "remote/" ++ p }

/-- Concrete workspace used by the concrete instances below. -/
def ws0 : WorkSpace := { id := "ws-0", skil := skil0 }

/-- Concrete experiment used by the concrete instances below. -/
def exp0 : Experiment := { id := "exp-0", work_space := ws0 }

/-- Concrete world: exactly one file, model.h5, exists. -/
def w0 : World :=
  { isfile := fun p => decide (p = "model.h5")
    cwd := "/work"
    freshUuid := "uuid-1"
    nowMs := 1234
    defaultSkil := skil0
    freshWorkSpaceId := "ws-new"
    freshExperimentId := "exp-new"
    evalResponse := "eval-response"
    newDeploymentResponse := { id := "dep-resp-0" } }

/-- Concrete model state, as after a successful registration of model.h5. -/
def mstate1 : ModelState :=
  { experiment := exp0
    id := "model-1"
    name := "model-1-name"
    version := 1
    model_name := "model.h5"
    model_path := "remote/model.h5"
    evaluations := []
    deployment := none
    model_deployment := none }

/-- Concrete deployment passed to deploy in the concrete run. -/
def dep1 : Deployment := { name := "dep-1", response := { id := "dep-resp-1" } }

/-- Concrete state after a successful deploy of mstate1 onto dep1. -/
def mstate2 : ModelState :=
  { mstate1 with
    deployment := some { id := "dep-resp-1" }
    model_deployment := some "deploy-resp" }

/-- Concrete service returned by the deploy of mstate1 onto dep1. -/
def svc2 : ServiceState :=
  { modelName := "model-1-name"
    deployment := { id := "dep-resp-1" }
    modelDeployment := "deploy-resp"
    running := true }

/-- Concrete request sent by the deploy of mstate1 onto dep1. -/
def req2 : ImportModelRequest :=
  { name := "model-1-name"
    scale := 1
    file_location := "remote/model.h5"
    model_type := "model"
    uri := deployUris "dep-1" "model-1-name"
    input_names := none
    output_names := none }

/-- Concrete trace of the deploy of mstate1 onto dep1. -/
def evs2 : List Event :=
  [Event.deployModel "dep-resp-1" req2, Event.startService]

/-- Concrete state after registering an in-memory model under exp0. -/
def st8 : ModelState :=
  { experiment := exp0
    id := "uuid-1"
    name := "temp_model.h5"
    version := 1
    model_name := "temp_model.h5"
    model_path := "remote/temp_model.h5"
    evaluations := []
    deployment := none
    model_deployment := none }

/-- Appending strings is associative. -/
theorem strAppendAssoc (a b c : String) : a ++ b ++ c = a ++ (b ++ c) := by
  cases a with
  | mk as =>
    cases b with
    | mk bs =>
      cases c with
      | mk cs =>
        show String.mk (as ++ bs ++ cs) = String.mk (as ++ (bs ++ cs))
        rw [List.append_assoc]

/-- Updating a dict in place at key k leaves lookups at other keys
unchanged. -/
theorem dictLookup_map_update (m : List (Option String × String))
    (k k' : Option String) (v : String) (h : k ≠ k') :
    dictLookup (m.map fun p => if p.1 = k then (p.1, v) else p) k'
      = dictLookup m k' := by
  induction m with
  | nil => rfl
  | cons p rest ih =>
    by_cases hp : p.1 = k
    · have hp' : p.1 ≠ k' := by rw [hp]; exact h
      simp [dictLookup, hp, hp', ih, h]
    · by_cases hq : p.1 = k'
      · simp [dictLookup, hp, hq, Ne.symm h]
      · simp [dictLookup, hp, hq, ih]

/-- Appending a binding at key k leaves lookups at other keys unchanged. -/
theorem dictLookup_append_single (m : List (Option String × String))
    (k k' : Option String) (v : String) (h : k ≠ k') :
    dictLookup (m ++ [(k, v)]) k' = dictLookup m k' := by
  induction m with
  | nil => simp [dictLookup, h]
  | cons p rest ih => by_cases hq : p.1 = k' <;> simp [dictLookup, hq, ih]

/-- Dict assignment at key k leaves lookups at other keys unchanged. -/
theorem dictLookup_dictInsert_ne (m : List (Option String × String))
    (k k' : Option String) (v : String) (h : k ≠ k') :
    dictLookup (dictInsert m k v) k' = dictLookup m k' := by
  unfold dictInsert
  by_cases hc : m.any (fun p => decide (p.1 = k)) = true
  · simp only [hc, if_true]
    exact dictLookup_map_update m k k' v h
  · simp only [hc, if_false, Bool.false_eq_true]
    exact dictLookup_append_single m k k' v h

/-- Characterization of the constructor on a string naming an existing
file: no local write happens, the path is kept as the model file name, and
the trace is the experiment resolution, the upload of the joined path and
the registration call carrying the raw id and name arguments. -/
theorem modelInit_str_eq (s : String) (id name : Option String)
    (version : Option Nat) (experiment : Option Experiment) (labels : String)
    (w : World) (hf : w.isfile s = true) :
    modelInit true (PyVal.str s) id name version experiment labels w
      = (Except.ok
           { experiment := (resolveExperiment experiment w).1
             id := orElseStr id w.freshUuid
             name := orElseStr name s
             version := orElseNat version 1
             model_name := s
             model_path :=
               (resolveExperiment experiment w).1.work_space.skil.getModelPath s
             evaluations := []
             deployment := none
             model_deployment := none },
         (resolveExperiment experiment w).2
           ++ [Event.uploadModel (osPathJoin w.cwd s),
               Event.addModelInstance
                 (resolveExperiment experiment w).1.work_space.skil.serverId
                 { uri :=
                     (resolveExperiment experiment w).1.work_space.skil.getModelPath s
                   model_id := id
                   model_labels := labels
                   model_name := name
                   model_version := orElseNat version 1
                   created := w.nowMs
                   experiment_id := (resolveExperiment experiment w).1.id }]) := by
  simp [modelInit, hf, List.append_assoc]

/-- Characterization of the constructor on an object exposing a save
method: the object is serialized to temp_model.h5, after removing a
pre-existing file of that name, and the trace continues with the
experiment resolution, the upload and the registration call carrying the
raw id and name arguments. -/
theorem modelInit_saveObj_eq (r : String) (id name : Option String)
    (version : Option Nat) (experiment : Option Experiment) (labels : String)
    (w : World) :
    modelInit true (PyVal.saveObj r) id name version experiment labels w
      = (Except.ok
           { experiment := (resolveExperiment experiment w).1
             id := orElseStr id w.freshUuid
             name := orElseStr name "temp_model.h5"
             version := orElseNat version 1
             model_name := "temp_model.h5"
             model_path :=
               (resolveExperiment experiment w).1.work_space.skil.getModelPath
                 "temp_model.h5"
             evaluations := []
             deployment := none
             model_deployment := none },
         (if w.isfile "temp_model.h5" then
            [Event.removeFile "temp_model.h5"] else [])
           ++ [Event.saveModel "temp_model.h5"]
           ++ (resolveExperiment experiment w).2
           ++ [Event.uploadModel (osPathJoin w.cwd "temp_model.h5"),
               Event.addModelInstance
                 (resolveExperiment experiment w).1.work_space.skil.serverId
                 { uri :=
                     (resolveExperiment experiment w).1.work_space.skil.getModelPath
                       "temp_model.h5"
                   model_id := id
                   model_labels := labels
                   model_name := name
                   model_version := orElseNat version 1
                   created := w.nowMs
                   experiment_id := (resolveExperiment experiment w).1.id }]) := by
  simp [modelInit, PyVal.hasSave, List.append_assoc]

/-- C1 counterexample: on a model with id model-1 and an empty evaluations
map, calling add_evaluation with no id sends eval_id model-1 in the
request, yet the response is stored under the key None, and no entry
exists under the key model-1, contradicting the claim that the response is
cached under the evaluation id. -/
theorem c1_counterexample :
    (evalEntities (addEvaluation mstate1 1 none none none w0).2).map
        EvaluationResultsEntity.eval_id = ["model-1"]
      ∧ dictLookup (addEvaluation mstate1 1 none none none w0).1.evaluations
          (some "model-1") = none
      ∧ dictLookup (addEvaluation mstate1 1 none none none w0).1.evaluations
          none = some "eval-response" :=
  ⟨rfl, rfl, rfl⟩

/-- C1 (amended): when the id argument of add_evaluation is not given, the
eval_id sent in the remote request defaults to the id of the model, but
the response is cached in the evaluations map under the raw id argument,
the key None, leaving the entry under the defaulted evaluation id
unchanged. -/
theorem c1_add_evaluation_cache_key (st : ModelState) (accuracy : Rat)
    (name : Option String) (version : Option Nat) (w : World) :
    (evalEntities (addEvaluation st accuracy none name version w).2).map
        EvaluationResultsEntity.eval_id = [st.id]
      ∧ (addEvaluation st accuracy none name version w).1.evaluations
          = dictInsert st.evaluations none w.evalResponse
      ∧ dictLookup (addEvaluation st accuracy none name version w).1.evaluations
          (some st.id)
          = dictLookup st.evaluations (some st.id) := by
  refine ⟨rfl, rfl, ?_⟩
  show dictLookup (dictInsert st.evaluations none w.evalResponse) (some st.id)
      = dictLookup st.evaluations (some st.id)
  exact dictLookup_dictInsert_ne _ _ _ _ (fun h => Option.noConfusion h)

/-- C2: loading a Model by id (create=False, as done by get_model_by_id)
never succeeds: after the get_model_instance fetch, the source reads the
local variable model_file_name, which is only assigned in the create=True
branch, so every load ends in an UnboundLocalError; when the id is absent
the assert fails first. -/
theorem c2_load_unbound_local (exp : Experiment) (mid : String) (w : World) :
    getModelById exp mid w
      = (Except.error (PyError.unboundLocal "model_file_name"),
         [Event.getModelInstance exp.work_space.skil.serverId mid])
    ∧ ∀ (model : PyVal) (name : Option String) (version : Option Nat)
        (labels : String),
        modelInit false model none name version (some exp) labels w
          = (Except.error PyError.assertionError, []) :=
  ⟨rfl, fun _ _ _ _ => rfl⟩

/-- C5: for every deployment name and model name pair, deploy builds
exactly two URIs, and they share the prefix deploymentName/model/modelName/
and differ only in the trailing segment, default versus v1. -/
theorem c5_deploy_uris (deploymentName modelName : String) :
    (deployUris deploymentName modelName).length = 2
    ∧ deployUris deploymentName modelName
      = [(deploymentName ++ "/model/" ++ modelName ++ "/") ++ "default",
         (deploymentName ++ "/model/" ++ modelName ++ "/") ++ "v1"] := by
  refine ⟨rfl, ?_⟩
  rw [strAppendAssoc (deploymentName ++ "/model/" ++ modelName) "/" "default",
      strAppendAssoc (deploymentName ++ "/model/" ++ modelName) "/" "v1"]
  rfl

/-- C3: when the model argument is neither a string naming an existing
file nor an object exposing a save method, the constructor raises the
invalid-model exception with an empty trace: nothing is written locally
and no remote call is attempted, in particular no upload and no
registration. -/
theorem c3_invalid_artifact_fail_fast (model : PyVal) (id name : Option String)
    (version : Option Nat) (experiment : Option Experiment) (labels : String)
    (w : World) (h1 : model.isExistingFileArg w.isfile = false)
    (h2 : model.hasSave = false) :
    modelInit true model id name version experiment labels w
      = (Except.error
           (PyError.invalidModel ("Invalid model: " ++ model.reprStr)), []) := by
  cases model with
  | str s =>
    simp only [PyVal.isExistingFileArg] at h1
    simp [modelInit, h1, PyVal.reprStr]
  | saveObj r => simp [PyVal.hasSave] at h2
  | plain r => simp [modelInit, PyVal.hasSave, PyVal.reprStr]
  | pynone => simp [modelInit, PyVal.hasSave, PyVal.reprStr]

/-- C3 witness: a concrete object without a save method, under the
concrete world, is rejected with an empty trace. -/
theorem c3_witness :
    modelInit true (PyVal.plain "obj") none none none none "" w0
      = (Except.error
           (PyError.invalidModel
             ("Invalid model: " ++ (PyVal.plain "obj").reprStr)), []) :=
  c3_invalid_artifact_fail_fast (PyVal.plain "obj") none none none none "" w0
    rfl rfl

/-- C6: when deploy is called without a deployment argument, exactly one
Deployment is created and it is named after the model itself; when a
deployment is supplied, none is created. This holds for every remote
outcome and start_server flag. -/
theorem c6_default_deployment (st : ModelState) (start_server : Bool)
    (scale : Nat) (input_names output_names : Option (List String))
    (w : World) (remote : Except String String) :
    createdDeploymentNames
        (modelDeploy st none start_server scale input_names output_names
          w remote).2
      = [st.name]
    ∧ ∀ d : Deployment,
        createdDeploymentNames
            (modelDeploy st (some d) start_server scale input_names output_names
              w remote).2
          = [] := by
  constructor
  · cases remote with
    | error e => rfl
    | ok resp => cases start_server <;> rfl
  · intro d
    cases remote with
    | error e => rfl
    | ok resp => cases start_server <;> rfl

/-- C7: constructing a Model from a string naming an existing file
performs no local write at all, keeps the given path as the model file
name, and the only upload is of that path joined to the working
directory. -/
theorem c7_path_used_as_is (p : String) (id name : Option String)
    (version : Option Nat) (experiment : Option Experiment) (labels : String)
    (w : World) (hf : w.isfile p = true) :
    (okStates (modelInit true (PyVal.str p) id name version experiment
          labels w).1).map ModelState.model_name = [p]
    ∧ ((modelInit true (PyVal.str p) id name version experiment labels
          w).2).filter Event.isLocalWrite = []
    ∧ uploadedPaths ((modelInit true (PyVal.str p) id name version experiment
          labels w).2) = [osPathJoin w.cwd p] := by
  rw [modelInit_str_eq p id name version experiment labels w hf]
  cases experiment <;>
    simp [resolveExperiment, okStates, uploadedPaths, Event.isLocalWrite]

/-- C7 witness: the concrete existing file model.h5 under the concrete
world. -/
theorem c7_witness :
    (okStates (modelInit true (PyVal.str "model.h5") none none none none
          "" w0).1).map ModelState.model_name = ["model.h5"]
    ∧ ((modelInit true (PyVal.str "model.h5") none none none none ""
          w0).2).filter Event.isLocalWrite = []
    ∧ uploadedPaths ((modelInit true (PyVal.str "model.h5") none none none
          none "" w0).2) = [osPathJoin w0.cwd "model.h5"] :=
  c7_path_used_as_is "model.h5" none none none none "" w0 rfl

/-- C8: when the id and name arguments are omitted, the registration
request carries the raw arguments, model_id None and model_name None,
while the local object defaults its id to the freshly generated uuid and
its name to the model file name; the generated id is never sent. -/
theorem c8_raw_args_registered (model : PyVal) (version : Option Nat)
    (experiment : Option Experiment) (labels : String) (w : World)
    (st : ModelState)
    (h : (modelInit true model none none version experiment labels w).1
          = Except.ok st) :
    (registeredEntities (modelInit true model none none version experiment
          labels w).2).map ModelInstanceEntity.model_id = [none]
    ∧ (registeredEntities (modelInit true model none none version experiment
          labels w).2).map ModelInstanceEntity.model_name = [none]
    ∧ st.id = w.freshUuid
    ∧ st.name = st.model_name := by
  cases model with
  | str s =>
    cases hf : w.isfile s with
    | false => simp [modelInit, hf] at h
    | true =>
      rw [modelInit_str_eq s none none version experiment labels w hf] at h ⊢
      simp only [Except.ok.injEq] at h
      subst h
      cases experiment <;>
        simp [resolveExperiment, registeredEntities, orElseStr]
  | saveObj r =>
    rw [modelInit_saveObj_eq r none none version experiment labels w] at h ⊢
    simp only [Except.ok.injEq] at h
    subst h
    cases experiment <;> cases hw : w.isfile "temp_model.h5" <;>
      simp [resolveExperiment, registeredEntities, orElseStr, hw]
  | plain r => simp [modelInit, PyVal.hasSave] at h
  | pynone => simp [modelInit, PyVal.hasSave] at h

/-- C8 witness: an in-memory model registered under the concrete
experiment with id and name omitted. -/
theorem c8_witness :
    (registeredEntities (modelInit true (PyVal.saveObj "net") none none none
          (some exp0) "" w0).2).map ModelInstanceEntity.model_id = [none]
    ∧ (registeredEntities (modelInit true (PyVal.saveObj "net") none none
          none (some exp0) "" w0).2).map ModelInstanceEntity.model_name
        = [none]
    ∧ st8.id = w0.freshUuid
    ∧ st8.name = st8.model_name :=
  c8_raw_args_registered (PyVal.saveObj "net") none (some exp0) "" w0 st8 rfl

/-- C9: a freshly constructed Model has no deployment attribute, so
calling undeploy before any deploy raises an AttributeError, whatever the
remote outcome would have been; the no-raise guarantee of undeploy only
holds after a successful deploy has assigned the attribute. -/
theorem c9_undeploy_before_deploy (model : PyVal) (id name : Option String)
    (version : Option Nat) (experiment : Option Experiment) (labels : String)
    (w : World) (st : ModelState) (r : Except String Unit)
    (h : (modelInit true model id name version experiment labels w).1
          = Except.ok st) :
    st.deployment = none
    ∧ modelUndeploy st r
        = (Except.error (PyError.attributeError "deployment"), []) := by
  have hd : st.deployment = none := by
    cases model with
    | str s =>
      cases hf : w.isfile s with
      | false => simp [modelInit, hf] at h
      | true =>
        rw [modelInit_str_eq s id name version experiment labels w hf] at h
        simp only [Except.ok.injEq] at h
        subst h
        rfl
    | saveObj r' =>
      rw [modelInit_saveObj_eq r' id name version experiment labels w] at h
      simp only [Except.ok.injEq] at h
      subst h
      rfl
    | plain r' => simp [modelInit, PyVal.hasSave] at h
    | pynone => simp [modelInit, PyVal.hasSave] at h
  refine ⟨hd, ?_⟩
  simp [modelUndeploy, hd]

/-- C9 witness: the concrete freshly registered in-memory model. -/
theorem c9_witness :
    st8.deployment = none
    ∧ modelUndeploy st8 (Except.error "boom")
        = (Except.error (PyError.attributeError "deployment"), []) :=
  c9_undeploy_before_deploy (PyVal.saveObj "net") none none none (some exp0)
    "" w0 st8 (Except.error "boom") rfl

/-- C10: constructing a Model from any object exposing a save method
always serializes it to the fixed path temp_model.h5, removing a
pre-existing file at that path first: the trace begins with the optional
removal followed by the save, the resulting model_name is temp_model.h5,
and the stored name defaults to temp_model.h5 whenever the name argument
is falsy, so repeated constructions all write the same file. -/
theorem c10_temp_model_fixed_path (r : String) (id name : Option String)
    (version : Option Nat) (experiment : Option Experiment) (labels : String)
    (w : World) :
    (okStates (modelInit true (PyVal.saveObj r) id name version experiment
          labels w).1).map ModelState.model_name = ["temp_model.h5"]
    ∧ (okStates (modelInit true (PyVal.saveObj r) id name version experiment
          labels w).1).map ModelState.name = [orElseStr name "temp_model.h5"]
    ∧ ((modelInit true (PyVal.saveObj r) id name version experiment labels
          w).2).take (if w.isfile "temp_model.h5" then 2 else 1)
        = (if w.isfile "temp_model.h5" then
             [Event.removeFile "temp_model.h5"] else [])
            ++ [Event.saveModel "temp_model.h5"] := by
  rw [modelInit_saveObj_eq r id name version experiment labels w]
  refine ⟨rfl, rfl, ?_⟩
  cases hw : w.isfile "temp_model.h5" <;> simp [hw]

/-- C4: after a successful deploy, neither undeploy nor delete ever
raises: an ApiException from the remote deletion call is caught and turned
into a printed message in both, so a deploy, undeploy, delete sequence is
expressible with none of the latter two calls throwing. -/
theorem c4_swallow_and_report (st : ModelState) (deployment : Option Deployment)
    (start_server : Bool) (scale : Nat)
    (input_names output_names : Option (List String)) (w : World)
    (resp : String) (st' : ModelState) (svc : ServiceState) (evs : List Event)
    (r1 r2 : Except String Unit)
    (h : modelDeploy st deployment start_server scale input_names output_names
          w (Except.ok resp) = (Except.ok (st', svc), evs)) :
    exceptIsOk (modelUndeploy st' r1).1 = true
    ∧ exceptIsOk (modelDelete st' r2).1 = true
    ∧ (∀ e, r1 = Except.error e →
        (modelUndeploy st' r1).1 = Except.ok [apiErrMsg e])
    ∧ (∀ e, r2 = Except.error e →
        (modelDelete st' r2).1 = Except.ok [apiErrMsg e]) := by
  have h1 := congrArg Prod.fst h
  have hd : ∃ dr, st'.deployment = some dr := by
    cases deployment with
    | none =>
      simp only [modelDeploy] at h1
      injection h1 with h2
      simp only [Prod.mk.injEq] at h2
      exact ⟨_, by rw [← h2.1]⟩
    | some d =>
      simp only [modelDeploy] at h1
      injection h1 with h2
      simp only [Prod.mk.injEq] at h2
      exact ⟨_, by rw [← h2.1]⟩
  obtain ⟨dr, hd⟩ := hd
  refine ⟨?_, ?_, ?_, ?_⟩
  · cases r1 <;> simp [modelUndeploy, hd, exceptIsOk]
  · cases r2 <;> simp [modelDelete, exceptIsOk]
  · intro e he
    subst he
    simp [modelUndeploy, hd]
  · intro e he
    subst he
    simp [modelDelete]

/-- C4 witness: the concrete deploy of mstate1 onto dep1 followed by an
undeploy and a delete whose remote calls both fail. -/
theorem c4_witness :
    exceptIsOk (modelUndeploy mstate2 (Except.error "boom")).1 = true
    ∧ exceptIsOk (modelDelete mstate2 (Except.error "boom2")).1 = true
    ∧ (∀ e, (Except.error "boom" : Except String Unit) = Except.error e →
        (modelUndeploy mstate2 (Except.error "boom")).1
          = Except.ok [apiErrMsg e])
    ∧ (∀ e, (Except.error "boom2" : Except String Unit) = Except.error e →
        (modelDelete mstate2 (Except.error "boom2")).1
          = Except.ok [apiErrMsg e]) :=
  c4_swallow_and_report mstate1 (some dep1) true 1 none none w0 "deploy-resp"
    mstate2 svc2 evs2 (Except.error "boom") (Except.error "boom2") rfl

end SkilSpec
